import Mathlib

/-!
Verification of the refinement conversation engine and analysis route of the
socratic_ai_backend repository.  The definitions below are a shallow embedding
of `app/api/routes/refinement.py`, `app/api/routes/similarity.py`,
`app/schemas/questions.py` and `app/models.py`.  UUIDs are modelled as natural
numbers; calls to `uuid.uuid4()` are modelled by explicit "fresh id" parameters
threaded into each operation, and `datetime.utcnow()` by a `now : Nat`
parameter.  Autogenerated primary keys and timestamp columns that the refine
route never reads are omitted from the record models.
-/

/-- `MCQOptionSchema` / the MCQ option dicts: label, text, is_correct. -/
structure MCQOption where
  label : String
  text : String
  is_correct : Bool
deriving DecidableEq, Repr

/-- The question-state dict manipulated by `refine_question` in
`refinement.py` (built at lines 108-116 from a DB row, or by
`QuestionState.model_dump()`, or read back from a conversation's
`current_state`).  `correct_answer` may be `None` when loaded from a DB row. -/
structure QStateDict where
  question_text : String
  question_type : String
  difficulty : String
  topic : Option String
  explanation : String
  correct_answer : Option String
  options : Option (List MCQOption)
deriving DecidableEq, Repr

/-- The pydantic `QuestionState` request model of `refinement.py`
(inline question state supplied by the caller). -/
structure QuestionState where
  question_text : String
  question_type : String := "mcq"
  difficulty : String := "medium"
  topic : Option String := none
  explanation : String := ""
  correct_answer : String := ""
  options : Option (List MCQOption) := none
deriving DecidableEq, Repr

/-- `QuestionState.model_dump()`: every declared field becomes a dict entry;
the `correct_answer` field is a `str`, hence always present (non-`None`). -/
def QuestionState.model_dump (s : QuestionState) : QStateDict :=
  { question_text := s.question_text
    question_type := s.question_type
    difficulty := s.difficulty
    topic := s.topic
    explanation := s.explanation
    correct_answer := some s.correct_answer
    options := s.options }

/-- `QuestionType` enum of `models.py`. -/
inductive QuestionType where
  | mcq
  | open_ended
deriving DecidableEq, Repr

/-- `QuestionType.value` (the string payloads "mcq" / "open_ended"). -/
def QuestionType.value : QuestionType → String
  | .mcq => "mcq"
  | .open_ended => "open_ended"

/-- The persisted `Question` row (`models.py`), restricted to the columns the
refinement route reads or writes. -/
structure Question where
  id : Nat
  owner_id : Option Nat
  question_text : String
  question_type : QuestionType
  difficulty : String
  topic : Option String
  explanation : String
  correct_answer : Option String
  options : Option (List MCQOption)
deriving DecidableEq, Repr

/-- The `RefinementEntry` row (`models.py`), restricted to the columns the
refine route supplies at creation (autogenerated id and timestamp omitted). -/
structure RefinementEntry where
  question_id : Nat
  instruction : String
  changes_made : String
  previous_state : QStateDict
  new_state : QStateDict
deriving DecidableEq, Repr

/-- The relevant slice of the persistence store: `Question` rows and
`RefinementEntry` rows. -/
structure DB where
  questions : List Question
  refinements : List RefinementEntry
deriving DecidableEq, Repr

/-- `session.get(Question, qid)`: first row with the given primary key. -/
def dbGetQuestion : List Question → Nat → Option Question
  | [], _ => none
  | q :: rest, qid => if q.id = qid then some q else dbGetQuestion rest qid

/-- One role-tagged entry of a conversation's `history` list. -/
structure Entry where
  role : String
  content : String
deriving DecidableEq, Repr

/-- One value of the in-memory `_conversations` dict of `refinement.py`. -/
structure Conversation where
  question_id : Option Nat
  history : List Entry
  current_state : QStateDict
  created_at : Nat
deriving DecidableEq, Repr

/-- `_conversations.get(cid)` on the store modelled as an association list. -/
def convGet : List (Nat × Conversation) → Nat → Option Conversation
  | [], _ => none
  | (k, c) :: rest, cid => if k = cid then some c else convGet rest cid

/-- `_conversations[cid] = c` (replace-or-insert). -/
def convSet : List (Nat × Conversation) → Nat → Conversation → List (Nat × Conversation)
  | [], cid, c => [(cid, c)]
  | (k, c') :: rest, cid, c =>
      if k = cid then (cid, c) :: rest else (k, c') :: convSet rest cid c

/-- In-place mutation of the conversation stored under `cid`
(`_conversations[cid]["history"].extend(...)` etc.). -/
def convUpdate : List (Nat × Conversation) → Nat → (Conversation → Conversation) →
    List (Nat × Conversation)
  | [], _, _ => []
  | (k, c) :: rest, cid, f =>
      if k = cid then (k, f c) :: rest else (k, c) :: convUpdate rest cid f

/-- `RefinedQuestion` schema (`schemas/questions.py`); the confidence score is
modelled as a rational. -/
structure RefinedQuestion where
  question_text : String
  question_type : String
  difficulty : String
  topic : Option String
  explanation : String
  options : Option (List MCQOption)
  correct_answer : String
  changes_made : String
  confidence_score : Rat
deriving DecidableEq, Repr

/-- The `RefinementRequest` body of `refinement.py`. -/
structure RefinementRequest where
  question_id : Option Nat
  question_state : Option QuestionState
  instruction : String
  conversation_id : Option Nat
deriving DecidableEq, Repr

/-- `QuestionPublic` response model (models.py lines 172-177): it inherits
`QuestionBase` and additionally declares `id` and `created_at` as REQUIRED
fields with no default, plus `session_id` defaulting to null.  Fields the
refinement flow never reads or writes (source_context) are omitted. -/
structure QuestionPublic where
  id : Nat
  created_at : Nat
  session_id : Option Nat
  question_text : String
  question_type : QuestionType
  difficulty : String
  topic : Option String
  explanation : String
  correct_answer : Option String
  options : Option (List MCQOption)
  confidence_score : Option Rat
deriving DecidableEq, Repr

/-- The keyword arguments of the `QuestionPublic(...)` construction at
refinement.py lines 200-210.  `created_at := none` and `session_id := none`
record that those keywords are NOT supplied there; `session_id` has a declared
default (`None`) in the model, but `created_at` (models.py line 174,
`created_at: datetime`) has none. -/
structure QuestionPublicInit where
  id : Nat
  question_text : String
  question_type : QuestionType
  difficulty : String
  topic : Option String
  explanation : String
  correct_answer : Option String
  options : Option (List MCQOption)
  confidence_score : Option Rat
  created_at : Option Nat := none
  session_id : Option Nat := none
deriving DecidableEq, Repr

/-- `RefinementResponse` body of `refinement.py`. -/
structure RefinementResponse where
  conversation_id : Nat
  refined_question : QuestionPublic
  changes_made : String
  confidence_score : Rat
  turn_number : Nat
deriving DecidableEq, Repr

/-- The error outcomes of the refine route: HTTP 404 ("Question not found"),
HTTP 400 ("Provide either question_id or question_state"), a
`GenerationFailure` escaping from the generation engine, and the pydantic
`ValidationError` (HTTP 500) raised while building the response object at
line 200. -/
inductive RefineError where
  | notFound
  | invalidRequest
  | generationFailure
  | validationError
deriving DecidableEq, Repr

/-- pydantic v2 validation performed by `QuestionPublic.__init__`
(`QuestionPublic` is a non-table SQLModel class, so init validation runs): a
missing `created_at` keyword has no declared default to fall back on, so the
construction raises `ValidationError`; a missing `session_id` falls back to
its declared default `None`. -/
def QuestionPublic.validate (kw : QuestionPublicInit) :
    Except RefineError QuestionPublic :=
  match kw.created_at with
  | none => Except.error RefineError.validationError
  | some t =>
      Except.ok
        { id := kw.id
          created_at := t
          session_id := kw.session_id
          question_text := kw.question_text
          question_type := kw.question_type
          difficulty := kw.difficulty
          topic := kw.topic
          explanation := kw.explanation
          correct_answer := kw.correct_answer
          options := kw.options
          confidence_score := kw.confidence_score }

/-- Result of one refine call: the store states after the call (the in-memory
conversation dict and the database survive a raised exception unchanged only
if nothing was mutated before the raise — state is threaded explicitly so that
mutation ordering is observable) plus the HTTP-level result. -/
structure RefineOutcome where
  db : DB
  convs : List (Nat × Conversation)
  result : Except RefineError RefinementResponse
deriving Repr

/-- The generation engine as seen by the route:
`generator.refine_question(question_state, instruction, conversation_history)`
returning a `RefinedQuestion` or raising `GenerationFailure` (`none`). -/
def Engine : Type :=
  QStateDict → String → Option (List Entry) → Option RefinedQuestion

/-- Python `a or b` on optional strings: `Some ""` and `none` are falsy. -/
def pyOr (a b : Option String) : Option String :=
  match a with
  | some s => if s = "" then b else some s
  | none => b

/-- Line 156: `[opt.model_dump() for opt in result.options] if result.options
else None` — an empty option list is falsy and collapses to `None`. -/
def mkOptions : Option (List MCQOption) → Option (List MCQOption)
  | some l => if l = [] then none else some l
  | none => none

/-- The `new_state` dict built at lines 149-157 from the engine result and the
(possibly conversation-overridden) `question_state`. -/
def mkNewState (r : RefinedQuestion) (question_state : QStateDict) : QStateDict :=
  { question_text := r.question_text
    question_type := r.question_type
    difficulty := r.difficulty
    topic := pyOr r.topic question_state.topic
    explanation := r.explanation
    correct_answer := some r.correct_answer
    options := mkOptions r.options }

/-- The user history entry appended at line 169. -/
def userEntry (instr : String) : Entry := ⟨"user", instr⟩

/-- The assistant history entry appended at line 170. -/
def assistantEntry (changes : String) : Entry := ⟨"assistant", "Changes: " ++ changes⟩

/-- The dict (lines 108-116) built from a persisted `Question` row. -/
def stateOfQuestion (q : Question) : QStateDict :=
  { question_text := q.question_text
    question_type := q.question_type.value
    difficulty := q.difficulty
    topic := q.topic
    explanation := q.explanation
    correct_answer := q.correct_answer
    options := q.options }

/-- Step 1 of the refine route (lines 102-125): resolve the target to a state
dict and an optional persisted question id.  `question_id` takes the first
branch whenever present; only when both forms are absent does the route fail
with HTTP 400. -/
def targetResolution (req : RefinementRequest) (db : DB) :
    Except RefineError (QStateDict × Option Nat) :=
  match req.question_id with
  | some qid =>
      match dbGetQuestion db.questions qid with
      | none => Except.error RefineError.notFound
      | some question => Except.ok (stateOfQuestion question, some qid)
  | none =>
      match req.question_state with
      | some qs => Except.ok (qs.model_dump, none)
      | none => Except.error RefineError.invalidRequest

/-- The conversation looked up at lines 131-133 (only when a
`conversation_id` was supplied). -/
def resolvedConv (req : RefinementRequest) (convs : List (Nat × Conversation)) :
    Option Conversation :=
  match req.conversation_id with
  | some cid => convGet convs cid
  | none => none

/-- Line 135: an existing conversation's `current_state` overrides the state
resolved from the target. -/
def resolvedState (qs0 : QStateDict) (req : RefinementRequest)
    (convs : List (Nat × Conversation)) : QStateDict :=
  match resolvedConv req convs with
  | some conv => conv.current_state
  | none => qs0

/-- Line 143: `conversation_history if conversation_history else None`. -/
def ctxArg (history : List Entry) : Option (List Entry) :=
  if history = [] then none else some history

/-- Lines 186-195: field updates applied to the persisted `Question` row;
`topic` is overwritten only when `result.topic` is truthy (non-`None`,
non-empty); `question_type` is left untouched. -/
def applyRefinement (q : Question) (r : RefinedQuestion)
    (new_options : Option (List MCQOption)) : Question :=
  { q with
    question_text := r.question_text
    difficulty := r.difficulty
    explanation := r.explanation
    correct_answer := some r.correct_answer
    options := new_options
    topic := match r.topic with
             | some t => if t = "" then q.topic else some t
             | none => q.topic }

/-- Lines 199-218: build the response.  The `QuestionPublic(...)` call at
line 200 omits the required `created_at` keyword, so its init validation
fails and the route raises `ValidationError` instead of ever reaching the
`RefinementResponse` construction at line 212. -/
def refineResponse (conversation_id : Nat) (question_id : Option Nat)
    (fr : Nat) (question_state : QStateDict)
    (new_options : Option (List MCQOption)) (turn_number : Nat)
    (r : RefinedQuestion) : Except RefineError RefinementResponse :=
  let response_question_kw : QuestionPublicInit :=
    { id := match question_id with | some q => q | none => fr
      question_text := r.question_text
      question_type :=
        if r.question_type = "mcq" then QuestionType.mcq else QuestionType.open_ended
      difficulty := r.difficulty
      topic := pyOr r.topic question_state.topic
      explanation := r.explanation
      correct_answer := some r.correct_answer
      options := new_options
      confidence_score := some r.confidence_score }
  match QuestionPublic.validate response_question_kw with
  | Except.error e => Except.error e
  | Except.ok response_question =>
      Except.ok
        { conversation_id := conversation_id
          refined_question := response_question
          changes_made := r.changes_made
          confidence_score := r.confidence_score
          turn_number := turn_number }

/-- Everything after a successful engine call (lines 146-218): conversation
store update, conditional persistence, and response construction.  The
conversation mutation and the database commit (line 197) precede the
`QuestionPublic(...)` construction at line 200, which omits the required
`created_at` keyword and therefore raises `ValidationError`: the call ends
with HTTP 500, keeping the already-performed mutations. -/
def refineCommit (req : RefinementRequest) (current_user : Option Nat) (db : DB)
    (convs : List (Nat × Conversation)) (fc fr now : Nat)
    (question_state : QStateDict) (question_id : Option Nat)
    (turn_number : Nat) (r : RefinedQuestion) : RefineOutcome :=
  -- line 147: conversation_id = request.conversation_id or uuid.uuid4()
  let conversation_id : Nat :=
    match req.conversation_id with
    | some c => c
    | none => fc
  let new_state : QStateDict := mkNewState r question_state
  -- lines 160-166: create the conversation entry if the id is not present
  let convs1 : List (Nat × Conversation) :=
    match convGet convs conversation_id with
    | some _ => convs
    | none => convSet convs conversation_id ⟨question_id, [], new_state, now⟩
  -- lines 168-172: append the two turn entries and replace the snapshot
  let convs2 : List (Nat × Conversation) :=
    convUpdate convs1 conversation_id (fun conv =>
      { conv with
        history := conv.history ++
          [userEntry req.instruction, assistantEntry r.changes_made]
        current_state := new_state })
  -- lines 174-197: persistence, guarded only by question_id and current_user
  let db' : DB :=
    match question_id, current_user with
    | some qid, some _ =>
        let refinement : RefinementEntry :=
          { question_id := qid
            instruction := req.instruction
            changes_made := r.changes_made
            previous_state := question_state
            new_state := new_state }
        let questions' : List Question :=
          match dbGetQuestion db.questions qid with
          | some _ =>
              db.questions.map (fun q =>
                if q.id = qid then applyRefinement q r new_state.options else q)
          | none => db.questions
        ⟨questions', db.refinements ++ [refinement]⟩
    | _, _ => db
  -- lines 199-218: response construction (raises, see refineResponse)
  ⟨db', convs2,
    refineResponse conversation_id question_id fr question_state
      new_state.options turn_number r⟩

/-- Steps 2-6 of the refine route, given the resolved target state and
optional persisted question id. -/
def refineCore (gen : Engine) (req : RefinementRequest) (current_user : Option Nat)
    (db : DB) (convs : List (Nat × Conversation)) (fc fr now : Nat)
    (qs0 : QStateDict) (question_id : Option Nat) : RefineOutcome :=
  -- lines 127-136: conversation continuity
  let conversation_history : List Entry :=
    match resolvedConv req convs with
    | some conv => conv.history
    | none => []
  let question_state : QStateDict := resolvedState qs0 req convs
  let turn_number : Nat :=
    match resolvedConv req convs with
    | some conv => conv.history.length / 2 + 1
    | none => 1
  -- lines 138-144: the engine call; a GenerationFailure escapes here, before
  -- any mutation of the conversation store or the database
  match gen question_state req.instruction (ctxArg conversation_history) with
  | none => ⟨db, convs, Except.error RefineError.generationFailure⟩
  | some r =>
      refineCommit req current_user db convs fc fr now question_state question_id
        turn_number r

/-- The whole `refine_question` route handler (`refinement.py` lines 78-218).
`fc` models the `uuid.uuid4()` at line 147, `fr` the one at line 201, and
`now` the `datetime.utcnow()` at line 165. -/
def refine_question (gen : Engine) (req : RefinementRequest)
    (current_user : Option Nat) (db : DB) (convs : List (Nat × Conversation))
    (fc fr now : Nat) : RefineOutcome :=
  match targetResolution req db with
  | Except.error e => ⟨db, convs, Except.error e⟩
  | Except.ok (qs0, question_id) =>
      refineCore gen req current_user db convs fc fr now qs0 question_id

/-- The `ConversationHistory` response model of `refinement.py`. -/
structure ConversationHistory where
  conversation_id : Nat
  question_id : Nat
  turns : List Entry
  current_state : QuestionState
deriving DecidableEq, Repr

/-- `QuestionState(**d)`: re-validating a state dict as the pydantic
`QuestionState` model fails (`ValidationError`) when `correct_answer` is
`None`, since that field is typed `str`. -/
def QuestionState.ofDict (d : QStateDict) : Option QuestionState :=
  match d.correct_answer with
  | some ca =>
      some { question_text := d.question_text
             question_type := d.question_type
             difficulty := d.difficulty
             topic := d.topic
             explanation := d.explanation
             correct_answer := ca
             options := d.options }
  | none => none

/-- The `get_conversation` route handler (lines 221-235).  `freshQ` models the
`uuid.uuid4()` at line 232, used whenever the stored `question_id` is `None`:
`question_id=conv.get("question_id") or uuid.uuid4()`. -/
def get_conversation (convs : List (Nat × Conversation)) (cid : Nat)
    (freshQ : Nat) : Except String ConversationHistory :=
  match convGet convs cid with
  | none => Except.error "Conversation not found"
  | some conv =>
      match QuestionState.ofDict conv.current_state with
      | none => Except.error "ValidationError"
      | some qs =>
          Except.ok
            { conversation_id := cid
              question_id := match conv.question_id with | some q => q | none => freshQ
              turns := conv.history
              current_state := qs }

/-- `QuestionAnalysis` schema (`schemas/questions.py` lines 61-77). -/
structure QuestionAnalysis where
  topic : String
  subtopic : String
  difficulty : String
  question_type : String
  key_concepts : List String
  mathematical_operations : Option (List String)
  format_style : String
deriving DecidableEq, Repr

/-- `SimilarityAnalysis` schema (`schemas/questions.py` lines 80-86): its only
declared fields are the nested `analysis` object and `variation_suggestions`. -/
structure SimilarityAnalysis where
  analysis : QuestionAnalysis
  variation_suggestions : List String
deriving DecidableEq, Repr

/-- Dynamic value of a Python attribute lookup on a `SimilarityAnalysis`. -/
inductive PyVal where
  | vStr : String → PyVal
  | vStrList : List String → PyVal
  | vOptStrList : Option (List String) → PyVal
  | vQA : QuestionAnalysis → PyVal
deriving DecidableEq, Repr

/-- Python attribute access on a `SimilarityAnalysis` instance: pydantic
models expose exactly their declared fields; any other name raises
`AttributeError` (modelled as `none`). -/
def SimilarityAnalysis.getAttr (a : SimilarityAnalysis) (name : String) :
    Option PyVal :=
  if name = "analysis" then some (PyVal.vQA a.analysis)
  else if name = "variation_suggestions" then some (PyVal.vStrList a.variation_suggestions)
  else none

/-- `AnalysisResponse` body of `similarity.py`. -/
structure AnalysisResponse where
  topic : String
  subtopic : String
  difficulty : String
  question_type : String
  key_concepts : List String
  mathematical_operations : Option (List String)
  format_style : String
  variation_suggestions : List String
deriving DecidableEq, Repr

/-- Lift an attribute lookup into the route's exception monad. -/
def pyGetAttr (o : Option PyVal) (name : String) : Except String PyVal :=
  match o with
  | some v => Except.ok v
  | none => Except.error ("AttributeError: " ++ name)

/-- The `/analyze` route handler (`similarity.py` lines 140-171), given the
`SimilarityAnalysis` returned by `generator.analyze_question`.  The route
reads `analysis.topic`, `analysis.subtopic`, ... directly off the
`SimilarityAnalysis` object (lines 162-171), although the schema nests those
fields inside `analysis.analysis`. -/
def analyze_route (a : SimilarityAnalysis) : Except String AnalysisResponse := do
  let PyVal.vStr topic ← pyGetAttr (a.getAttr "topic") "topic"
    | Except.error "TypeError"
  let PyVal.vStr subtopic ← pyGetAttr (a.getAttr "subtopic") "subtopic"
    | Except.error "TypeError"
  let PyVal.vStr difficulty ← pyGetAttr (a.getAttr "difficulty") "difficulty"
    | Except.error "TypeError"
  let PyVal.vStr question_type ← pyGetAttr (a.getAttr "question_type") "question_type"
    | Except.error "TypeError"
  let PyVal.vStrList key_concepts ← pyGetAttr (a.getAttr "key_concepts") "key_concepts"
    | Except.error "TypeError"
  let PyVal.vOptStrList math_ops ←
      pyGetAttr (a.getAttr "mathematical_operations") "mathematical_operations"
    | Except.error "TypeError"
  let PyVal.vStr format_style ← pyGetAttr (a.getAttr "format_style") "format_style"
    | Except.error "TypeError"
  let PyVal.vStrList variation_suggestions ←
      pyGetAttr (a.getAttr "variation_suggestions") "variation_suggestions"
    | Except.error "TypeError"
  Except.ok
    { topic := topic
      subtopic := subtopic
      difficulty := difficulty
      question_type := question_type
      key_concepts := key_concepts
      mathematical_operations := math_ops
      format_style := format_style
      variation_suggestions := variation_suggestions }

/-- Sample option list used by concrete instances below. -/
def sampleOptions : List MCQOption :=
  [⟨"A", "Making food", true⟩, ⟨"B", "Breathing", false⟩]

/-- Sample inline question state. -/
def sampleState : QuestionState :=
  { question_text := "What is photosynthesis?"
    question_type := "mcq"
    difficulty := "medium"
    topic := some "Biology"
    explanation := "Plants make food."
    correct_answer := "A"
    options := some sampleOptions }

/-- Sample engine result. -/
def sampleRefined : RefinedQuestion :=
  { question_text := "What do plants use to make food?"
    question_type := "mcq"
    difficulty := "easy"
    topic := some "Biology"
    explanation := "Photosynthesis uses light."
    options := some sampleOptions
    correct_answer := "A"
    changes_made := "Simplified wording"
    confidence_score := 1 }

/-- An engine that always succeeds with `sampleRefined`. -/
def constEngine : Engine := fun _ _ _ => some sampleRefined

/-- An engine that always raises `GenerationFailure`. -/
def failEngine : Engine := fun _ _ _ => none

/-- Sample persisted question, owned by user 1. -/
def sampleQuestion10 : Question :=
  { id := 10
    owner_id := some 1
    question_text := "Original text"
    question_type := QuestionType.mcq
    difficulty := "medium"
    topic := some "Biology"
    explanation := "Original explanation"
    correct_answer := some "A"
    options := some sampleOptions }

/-- Sample database holding only `sampleQuestion10`. -/
def sampleDB : DB := ⟨[sampleQuestion10], []⟩

theorem convGet_convSet_self (cs : List (Nat × Conversation)) (k : Nat)
    (c : Conversation) : convGet (convSet cs k c) k = some c := by
  induction cs with
  | nil => simp [convSet, convGet]
  | cons hd tl ih =>
    obtain ⟨k', c'⟩ := hd
    by_cases h : k' = k
    · simp [convSet, convGet, h]
    · simp [convSet, convGet, h, ih]

theorem convGet_convUpdate_self {cs : List (Nat × Conversation)} {k : Nat}
    {c : Conversation} (f : Conversation → Conversation)
    (h : convGet cs k = some c) :
    convGet (convUpdate cs k f) k = some (f c) := by
  induction cs with
  | nil => simp [convGet] at h
  | cons hd tl ih =>
    obtain ⟨k', c'⟩ := hd
    by_cases hk : k' = k
    · simp only [convGet, if_pos hk] at h
      cases h
      simp [convUpdate, convGet, hk]
    · simp only [convGet, if_neg hk] at h
      simp [convUpdate, convGet, hk, ih h]

theorem convGet_convSet_ne (cs : List (Nat × Conversation)) {k k' : Nat}
    (c : Conversation) (h : k' ≠ k) :
    convGet (convSet cs k c) k' = convGet cs k' := by
  induction cs with
  | nil => simp [convSet, convGet, Ne.symm h]
  | cons hd tl ih =>
    obtain ⟨k0, c0⟩ := hd
    by_cases hk : k0 = k
    · subst hk
      simp [convSet, convGet, Ne.symm h]
    · simp [convSet, convGet, hk, ih]

theorem convGet_convUpdate_ne (cs : List (Nat × Conversation)) {k k' : Nat}
    (f : Conversation → Conversation) (h : k' ≠ k) :
    convGet (convUpdate cs k f) k' = convGet cs k' := by
  induction cs with
  | nil => simp [convUpdate]
  | cons hd tl ih =>
    obtain ⟨k0, c0⟩ := hd
    by_cases hk : k0 = k
    · subst hk
      simp [convUpdate, convGet, Ne.symm h]
    · simp [convUpdate, convGet, hk, ih]

theorem dbGetQuestion_id {qs : List Question} {qid : Nat} {q0 : Question}
    (h : dbGetQuestion qs qid = some q0) : q0.id = qid := by
  induction qs with
  | nil => simp [dbGetQuestion] at h
  | cons hd tl ih =>
    by_cases hh : hd.id = qid
    · simp only [dbGetQuestion, if_pos hh] at h
      cases h
      exact hh
    · simp only [dbGetQuestion, if_neg hh] at h
      exact ih h

theorem dbGetQuestion_map_update {qs : List Question} {qid : Nat} {q0 : Question}
    (g : Question → Question) (h : dbGetQuestion qs qid = some q0)
    (hid : (g q0).id = q0.id) :
    dbGetQuestion (qs.map fun q => if q.id = qid then g q else q) qid
      = some (g q0) := by
  induction qs with
  | nil => simp [dbGetQuestion] at h
  | cons hd tl ih =>
    by_cases hh : hd.id = qid
    · simp only [dbGetQuestion, if_pos hh] at h
      cases h
      have : (g q0).id = qid := by rw [hid]; exact hh
      simp [dbGetQuestion, if_pos hh, this]
    · simp only [dbGetQuestion, if_neg hh] at h
      simp [dbGetQuestion, if_neg hh, ih h]

theorem applyRefinement_id (q : Question) (r : RefinedQuestion)
    (o : Option (List MCQOption)) : (applyRefinement q r o).id = q.id := rfl

theorem refine_question_target_some {req : RefinementRequest} {db : DB}
    {qid : Nat} {question : Question} (gen : Engine) (user : Option Nat)
    (convs : List (Nat × Conversation)) (fc fr now : Nat)
    (h1 : req.question_id = some qid)
    (h2 : dbGetQuestion db.questions qid = some question) :
    refine_question gen req user db convs fc fr now =
      refineCore gen req user db convs fc fr now (stateOfQuestion question)
        (some qid) := by
  simp [refine_question, targetResolution, h1, h2]

theorem refine_question_target_inline {req : RefinementRequest}
    {qs : QuestionState} (gen : Engine) (user : Option Nat) (db : DB)
    (convs : List (Nat × Conversation)) (fc fr now : Nat)
    (h1 : req.question_id = none) (h2 : req.question_state = some qs) :
    refine_question gen req user db convs fc fr now =
      refineCore gen req user db convs fc fr now qs.model_dump none := by
  simp [refine_question, targetResolution, h1, h2]

theorem refineCore_conv_some {gen : Engine} {req : RefinementRequest}
    {convs : List (Nat × Conversation)} {conv : Conversation}
    {r : RefinedQuestion} (user : Option Nat) (db : DB) (fc fr now : Nat)
    (qs0 : QStateDict) (qid : Option Nat)
    (hc : resolvedConv req convs = some conv)
    (hg : gen conv.current_state req.instruction (ctxArg conv.history) = some r) :
    refineCore gen req user db convs fc fr now qs0 qid =
      refineCommit req user db convs fc fr now conv.current_state qid
        (conv.history.length / 2 + 1) r := by
  simp [refineCore, resolvedState, hc, hg]

theorem refineCore_conv_none {gen : Engine} {req : RefinementRequest}
    {convs : List (Nat × Conversation)} {r : RefinedQuestion} {qs0 : QStateDict}
    (user : Option Nat) (db : DB) (fc fr now : Nat) (qid : Option Nat)
    (hc : resolvedConv req convs = none)
    (hg : gen qs0 req.instruction none = some r) :
    refineCore gen req user db convs fc fr now qs0 qid =
      refineCommit req user db convs fc fr now qs0 qid 1 r := by
  simp [refineCore, resolvedState, hc, ctxArg, hg]

theorem refineCore_gen_fail {gen : Engine} (req : RefinementRequest)
    (user : Option Nat) (db : DB) (convs : List (Nat × Conversation))
    (fc fr now : Nat) (qs0 : QStateDict) (qid : Option Nat)
    (hg : ∀ s i c, gen s i c = none) :
    refineCore gen req user db convs fc fr now qs0 qid =
      ⟨db, convs, Except.error RefineError.generationFailure⟩ := by
  simp [refineCore, hg]

theorem refineCore_congr_req (gen : Engine) (a a' : Option Nat)
    (b b' : Option QuestionState) (i : String) (c : Option Nat)
    (user : Option Nat) (db : DB) (convs : List (Nat × Conversation))
    (fc fr now : Nat) (qs0 : QStateDict) (qid : Option Nat) :
    refineCore gen ⟨a, b, i, c⟩ user db convs fc fr now qs0 qid =
      refineCore gen ⟨a', b', i, c⟩ user db convs fc fr now qs0 qid := rfl

theorem refineCommit_result (req : RefinementRequest) (user : Option Nat)
    (db : DB) (convs : List (Nat × Conversation)) (fc fr now : Nat)
    (qst : QStateDict) (qid : Option Nat) (turn : Nat) (r : RefinedQuestion) :
    (refineCommit req user db convs fc fr now qst qid turn r).result =
      Except.error RefineError.validationError := rfl

theorem refineCommit_db_persist {db : DB} {qid : Nat} {q0 : Question}
    {user : Option Nat} {b : Nat} (req : RefinementRequest)
    (convs : List (Nat × Conversation)) (fc fr now : Nat) (qst : QStateDict)
    (turn : Nat) (r : RefinedQuestion)
    (hdb : dbGetQuestion db.questions qid = some q0) (huser : user = some b) :
    (refineCommit req user db convs fc fr now qst (some qid) turn r).db =
      ⟨db.questions.map (fun q =>
          if q.id = qid then applyRefinement q r (mkNewState r qst).options else q),
        db.refinements ++
          [⟨qid, req.instruction, r.changes_made, qst, mkNewState r qst⟩]⟩ := by
  subst huser
  simp [refineCommit, hdb]

theorem refineCommit_db_no_user (req : RefinementRequest) (db : DB)
    (convs : List (Nat × Conversation)) (fc fr now : Nat) (qst : QStateDict)
    (qid : Option Nat) (turn : Nat) (r : RefinedQuestion) :
    (refineCommit req none db convs fc fr now qst qid turn r).db = db := by
  cases qid <;> simp [refineCommit]

theorem refineCommit_db_inline (req : RefinementRequest) (user : Option Nat)
    (db : DB) (convs : List (Nat × Conversation)) (fc fr now : Nat)
    (qst : QStateDict) (turn : Nat) (r : RefinedQuestion) :
    (refineCommit req user db convs fc fr now qst none turn r).db = db := by
  cases user <;> simp [refineCommit]

theorem refineCommit_convs_existing {req : RefinementRequest} {cid : Nat}
    {convs : List (Nat × Conversation)} {conv : Conversation}
    (user : Option Nat) (db : DB) (fc fr now : Nat) (qst : QStateDict)
    (qid : Option Nat) (turn : Nat) (r : RefinedQuestion)
    (hcid : req.conversation_id = some cid) (hc : convGet convs cid = some conv) :
    (refineCommit req user db convs fc fr now qst qid turn r).convs =
      convUpdate convs cid (fun conv =>
        { conv with
          history := conv.history ++
            [userEntry req.instruction, assistantEntry r.changes_made]
          current_state := mkNewState r qst }) := by
  simp [refineCommit, hcid, hc]

theorem refineCommit_convs_new {req : RefinementRequest} {cid : Nat}
    {convs : List (Nat × Conversation)}
    (user : Option Nat) (db : DB) (fc fr now : Nat) (qst : QStateDict)
    (qid : Option Nat) (turn : Nat) (r : RefinedQuestion)
    (hcid : req.conversation_id = some cid) (hc : convGet convs cid = none) :
    (refineCommit req user db convs fc fr now qst qid turn r).convs =
      convUpdate (convSet convs cid ⟨qid, [], mkNewState r qst, now⟩) cid
        (fun conv =>
          { conv with
            history := conv.history ++
              [userEntry req.instruction, assistantEntry r.changes_made]
            current_state := mkNewState r qst }) := by
  simp [refineCommit, hcid, hc]

theorem refineCommit_convs_fresh {req : RefinementRequest}
    {convs : List (Nat × Conversation)} {fc : Nat}
    (user : Option Nat) (db : DB) (fr now : Nat) (qst : QStateDict)
    (qid : Option Nat) (turn : Nat) (r : RefinedQuestion)
    (hcid : req.conversation_id = none) (hc : convGet convs fc = none) :
    (refineCommit req user db convs fc fr now qst qid turn r).convs =
      convUpdate (convSet convs fc ⟨qid, [], mkNewState r qst, now⟩) fc
        (fun conv =>
          { conv with
            history := conv.history ++
              [userEntry req.instruction, assistantEntry r.changes_made]
            current_state := mkNewState r qst }) := by
  simp [refineCommit, hcid, hc]

theorem convGet_after_commit_new {req : RefinementRequest} {cid : Nat}
    {convs : List (Nat × Conversation)}
    (user : Option Nat) (db : DB) (fc fr now : Nat) (qst : QStateDict)
    (qid : Option Nat) (turn : Nat) (r : RefinedQuestion)
    (hcid : req.conversation_id = some cid) (hc : convGet convs cid = none) :
    convGet (refineCommit req user db convs fc fr now qst qid turn r).convs cid =
      some ⟨qid, [userEntry req.instruction, assistantEntry r.changes_made],
        mkNewState r qst, now⟩ := by
  rw [refineCommit_convs_new user db fc fr now qst qid turn r hcid hc]
  rw [convGet_convUpdate_self _ (convGet_convSet_self convs cid _)]
  rfl

theorem convGet_after_commit_fresh {req : RefinementRequest}
    {convs : List (Nat × Conversation)} {fc : Nat}
    (user : Option Nat) (db : DB) (fr now : Nat) (qst : QStateDict)
    (qid : Option Nat) (turn : Nat) (r : RefinedQuestion)
    (hcid : req.conversation_id = none) (hc : convGet convs fc = none) :
    convGet (refineCommit req user db convs fc fr now qst qid turn r).convs fc =
      some ⟨qid, [userEntry req.instruction, assistantEntry r.changes_made],
        mkNewState r qst, now⟩ := by
  rw [refineCommit_convs_fresh user db fr now qst qid turn r hcid hc]
  rw [convGet_convUpdate_self _ (convGet_convSet_self convs fc _)]
  rfl

theorem convGet_after_commit_existing {req : RefinementRequest} {cid : Nat}
    {convs : List (Nat × Conversation)} {conv : Conversation}
    (user : Option Nat) (db : DB) (fc fr now : Nat) (qst : QStateDict)
    (qid : Option Nat) (turn : Nat) (r : RefinedQuestion)
    (hcid : req.conversation_id = some cid) (hc : convGet convs cid = some conv) :
    convGet (refineCommit req user db convs fc fr now qst qid turn r).convs cid =
      some { conv with
             history := conv.history ++
               [userEntry req.instruction, assistantEntry r.changes_made]
             current_state := mkNewState r qst } := by
  rw [refineCommit_convs_existing user db fc fr now qst qid turn r hcid hc]
  rw [convGet_convUpdate_self _ hc]

theorem refine_persist_db {gen : Engine} {r : RefinedQuestion}
    {req : RefinementRequest} {user : Option Nat} {db : DB}
    {convs : List (Nat × Conversation)} {qid : Nat} {q0 : Question} {b : Nat}
    (fc fr now : Nat)
    (hg : ∀ s i c, gen s i c = some r)
    (hq : req.question_id = some qid)
    (hdb : dbGetQuestion db.questions qid = some q0)
    (huser : user = some b) :
    (refine_question gen req user db convs fc fr now).db =
      ⟨db.questions.map (fun q =>
          if q.id = qid then
            applyRefinement q r
              (mkNewState r (resolvedState (stateOfQuestion q0) req convs)).options
          else q),
        db.refinements ++
          [⟨qid, req.instruction, r.changes_made,
            resolvedState (stateOfQuestion q0) req convs,
            mkNewState r (resolvedState (stateOfQuestion q0) req convs)⟩]⟩ := by
  rw [refine_question_target_some gen user convs fc fr now hq hdb]
  cases hc : resolvedConv req convs with
  | none =>
      rw [refineCore_conv_none user db fc fr now (some qid) hc (hg _ _ _)]
      simp only [resolvedState, hc]
      exact refineCommit_db_persist req convs fc fr now _ 1 r hdb huser
  | some conv =>
      rw [refineCore_conv_some user db fc fr now (stateOfQuestion q0) (some qid) hc
        (hg _ _ _)]
      simp only [resolvedState, hc]
      exact refineCommit_db_persist req convs fc fr now _ _ r hdb huser

/-- C1: if the generation engine fails in step 3, the failure propagates to
the caller as a `GenerationFailure` and neither the conversation store nor the
database is mutated: the whole outcome is the original state plus the error,
so the targeted conversation keeps its history and snapshot and no new
conversation is created for a fresh call. -/
theorem c1_generation_failure_atomic (gen : Engine) (req : RefinementRequest)
    (user : Option Nat) (db : DB) (convs : List (Nat × Conversation))
    (fc fr now : Nat) (qs0 : QStateDict) (qid : Option Nat)
    (hg : ∀ s i c, gen s i c = none)
    (ht : targetResolution req db = Except.ok (qs0, qid)) :
    refine_question gen req user db convs fc fr now =
      ⟨db, convs, Except.error RefineError.generationFailure⟩ := by
  rw [refine_question, ht]
  exact refineCore_gen_fail req user db convs fc fr now qs0 qid hg

/-- Witness for C1 at a concrete fresh call with inline state. -/
theorem c1_generation_failure_atomic_witness :
    refine_question failEngine
        ⟨none, some sampleState, "Make the question shorter", none⟩
        none sampleDB [] 7 8 0
      = ⟨sampleDB, [], Except.error RefineError.generationFailure⟩ :=
  c1_generation_failure_atomic failEngine
    ⟨none, some sampleState, "Make the question shorter", none⟩
    none sampleDB [] 7 8 0 sampleState.model_dump none (fun _ _ _ => rfl) rfl

/-- C3: the claim says the analyze route successfully projects topic,
subtopic, difficulty, type, key concepts, math operations, format style and
variation suggestions out of the engine's `SimilarityAnalysis` result; in the
code those fields live inside the nested `analysis` object, so the very first
attribute access `analysis.topic` raises `AttributeError` on every input and
the route never succeeds. -/
theorem c3_analyze_route_attribute_error (a : SimilarityAnalysis) :
    analyze_route a = Except.error "AttributeError: topic" := rfl

/-- Counterexample for C4: a request supplying BOTH `question_id` and
`question_state` is not rejected with `InvalidRequest`.  It is processed —
the whole refine pipeline runs and a conversation is recorded in the store —
behaving exactly as if only `question_id` had been sent; the error it does
end with is the response-construction `ValidationError` that every
generation-successful call hits, not `InvalidRequest`. -/
theorem c4_both_forms_counterexample :
    (refine_question constEngine
        ⟨some 10, some sampleState, "Make the question easier", none⟩
        none sampleDB [] 100 200 0).result
      = Except.error RefineError.validationError ∧
    RefineError.validationError ≠ RefineError.invalidRequest ∧
    convGet (refine_question constEngine
        ⟨some 10, some sampleState, "Make the question easier", none⟩
        none sampleDB [] 100 200 0).convs 100
      = some ⟨some 10,
          [userEntry "Make the question easier",
            assistantEntry sampleRefined.changes_made],
          mkNewState sampleRefined (stateOfQuestion sampleQuestion10), 0⟩ ∧
    refine_question constEngine
        ⟨some 10, some sampleState, "Make the question easier", none⟩
        none sampleDB [] 100 200 0
      = refine_question constEngine
          ⟨some 10, none, "Make the question easier", none⟩
          none sampleDB [] 100 200 0 :=
  ⟨rfl, by decide, rfl, rfl⟩

/-- C4 (amended): a request supplying neither `question_id` nor
`question_state` fails with `InvalidRequest`, but a request supplying both is
silently accepted: `question_id` takes precedence and the outcome is
identical to the same request without the inline state. -/
theorem c4_neither_rejected_both_accepted (gen : Engine) (user : Option Nat)
    (db : DB) (convs : List (Nat × Conversation)) (fc fr now : Nat)
    (i : String) (c : Option Nat) (qid : Nat) (qs : QuestionState) :
    refine_question gen ⟨none, none, i, c⟩ user db convs fc fr now
        = ⟨db, convs, Except.error RefineError.invalidRequest⟩ ∧
    refine_question gen ⟨some qid, some qs, i, c⟩ user db convs fc fr now
        = refine_question gen ⟨some qid, none, i, c⟩ user db convs fc fr now := by
  constructor
  · rfl
  · show (match targetResolution ⟨some qid, some qs, i, c⟩ db with
      | Except.error e => (⟨db, convs, Except.error e⟩ : RefineOutcome)
      | Except.ok (qs0, question_id) =>
          refineCore gen ⟨some qid, some qs, i, c⟩ user db convs fc fr now qs0 question_id) = _
    cases hdb : dbGetQuestion db.questions qid with
    | none => simp [refine_question, targetResolution, hdb]
    | some question =>
        simp only [refine_question, targetResolution, hdb]
        exact refineCore_congr_req gen (some qid) (some qid) (some qs) none i c
          user db convs fc fr now (stateOfQuestion question) (some qid)

/-- Counterexample for C2: question 10 is owned by user 1, the caller identity
is user 2 (non-null, different), yet the refine call writes a
`RefinementEntry` for the question and overwrites its text — there is no
owner check on the persistence path. -/
theorem c2_foreign_caller_counterexample :
    sampleQuestion10.owner_id = some 1 ∧ (2 : Nat) ≠ 1 ∧
    (refine_question constEngine
        ⟨some 10, none, "Make the question easier", none⟩
        (some 2) sampleDB [] 100 200 0).db.refinements.length = 1 ∧
    (dbGetQuestion
        (refine_question constEngine
          ⟨some 10, none, "Make the question easier", none⟩
          (some 2) sampleDB [] 100 200 0).db.questions 10).map
        (fun q => q.question_text)
      = some "What do plants use to make food?" :=
  ⟨rfl, by decide, rfl, rfl⟩

/-- C2 (amended): the owner-check is NOT applied to persistence: for every
refine call targeting a persisted Question owned by user `a`, invoked with
any non-null caller identity `b` with `b ≠ a`, the operation still writes a
`RefinementEntry` for that Question and still overwrites the Question's
fields — persistence is guarded only by "persisted target" and "non-null
caller". -/
theorem c2_persistence_ignores_ownership (gen : Engine) (r : RefinedQuestion)
    (req : RefinementRequest) (user : Option Nat) (db : DB)
    (convs : List (Nat × Conversation)) (fc fr now : Nat) (qid : Nat)
    (q0 : Question) (a b : Nat)
    (hg : ∀ s i c, gen s i c = some r)
    (hq : req.question_id = some qid)
    (hdb : dbGetQuestion db.questions qid = some q0)
    (howner : q0.owner_id = some a)
    (huser : user = some b)
    (hne : b ≠ a) :
    (refine_question gen req user db convs fc fr now).db.refinements
        = db.refinements ++
          [⟨qid, req.instruction, r.changes_made,
            resolvedState (stateOfQuestion q0) req convs,
            mkNewState r (resolvedState (stateOfQuestion q0) req convs)⟩] ∧
    dbGetQuestion (refine_question gen req user db convs fc fr now).db.questions qid
        = some (applyRefinement q0 r
            (mkNewState r (resolvedState (stateOfQuestion q0) req convs)).options) := by
  rw [refine_persist_db fc fr now hg hq hdb huser]
  refine ⟨rfl, ?_⟩
  exact dbGetQuestion_map_update _ hdb (applyRefinement_id q0 r _)

/-- Witness for C2 (amended) at the concrete foreign-caller input. -/
theorem c2_persistence_ignores_ownership_witness :
    (refine_question constEngine
        ⟨some 10, none, "Make the question easier", none⟩
        (some 2) sampleDB [] 100 200 0).db.refinements.length = 1 := by
  rw [(c2_persistence_ignores_ownership constEngine sampleRefined
        ⟨some 10, none, "Make the question easier", none⟩ (some 2) sampleDB []
        100 200 0 10 sampleQuestion10 1 2 (fun _ _ _ => rfl) rfl rfl rfl rfl
        (by decide)).1]
  rfl

theorem refine_question_resolved {req : RefinementRequest} {db : DB}
    {qs0 : QStateDict} {qid : Option Nat} (gen : Engine) (user : Option Nat)
    (convs : List (Nat × Conversation)) (fc fr now : Nat)
    (ht : targetResolution req db = Except.ok (qs0, qid)) :
    refine_question gen req user db convs fc fr now =
      refineCore gen req user db convs fc fr now qs0 qid := by
  rw [refine_question, ht]

theorem resolvedConv_of_cid {req : RefinementRequest} {cid : Nat}
    (convs : List (Nat × Conversation)) (hcid : req.conversation_id = some cid) :
    resolvedConv req convs = convGet convs cid := by
  simp [resolvedConv, hcid]

theorem resolvedConv_of_none {req : RefinementRequest}
    (convs : List (Nat × Conversation)) (hcid : req.conversation_id = none) :
    resolvedConv req convs = none := by
  simp [resolvedConv, hcid]

theorem refine_success_shape {gen : Engine} {req : RefinementRequest} {db : DB}
    {qs0 : QStateDict} {qid : Option Nat} {r : RefinedQuestion}
    (user : Option Nat) (convs : List (Nat × Conversation)) (fc fr now : Nat)
    (ht : targetResolution req db = Except.ok (qs0, qid))
    (hg : ∀ s i c, gen s i c = some r) :
    refine_question gen req user db convs fc fr now =
      refineCommit req user db convs fc fr now (resolvedState qs0 req convs) qid
        (match resolvedConv req convs with
         | some conv => conv.history.length / 2 + 1
         | none => 1) r := by
  rw [refine_question_resolved gen user convs fc fr now ht]
  cases hc : resolvedConv req convs with
  | none =>
      rw [refineCore_conv_none user db fc fr now qid hc (hg _ _ _)]
      simp [resolvedState, hc]
  | some conv =>
      rw [refineCore_conv_some user db fc fr now qs0 qid hc (hg _ _ _)]
      simp [resolvedState, hc]

theorem convGet_after_commit_new_ne {req : RefinementRequest} {cid : Nat}
    {convs : List (Nat × Conversation)}
    (user : Option Nat) (db : DB) (fc fr now : Nat) (qst : QStateDict)
    (qid : Option Nat) (turn : Nat) (r : RefinedQuestion)
    (hcid : req.conversation_id = some cid) (hc : convGet convs cid = none)
    {k : Nat} (hk : k ≠ cid) :
    convGet (refineCommit req user db convs fc fr now qst qid turn r).convs k
      = convGet convs k := by
  rw [refineCommit_convs_new user db fc fr now qst qid turn r hcid hc]
  rw [convGet_convUpdate_ne _ _ hk, convGet_convSet_ne _ _ hk]

theorem convGet_after_commit_fresh_ne {req : RefinementRequest}
    {convs : List (Nat × Conversation)} {fc : Nat}
    (user : Option Nat) (db : DB) (fr now : Nat) (qst : QStateDict)
    (qid : Option Nat) (turn : Nat) (r : RefinedQuestion)
    (hcid : req.conversation_id = none) (hc : convGet convs fc = none)
    {k : Nat} (hk : k ≠ fc) :
    convGet (refineCommit req user db convs fc fr now qst qid turn r).convs k
      = convGet convs k := by
  rw [refineCommit_convs_fresh user db fr now qst qid turn r hcid hc]
  rw [convGet_convUpdate_ne _ _ hk, convGet_convSet_ne _ _ hk]

/-- Counterexample for C5: a refine call supplying `conversation_id = 99`
that matches no existing conversation does NOT mint a fresh id — the new
conversation is created in the store under the caller-supplied value 99,
while nothing is stored under the fresh uuid (1000); and the call returns no
`turn_number` at all, ending in the response-construction `ValidationError`. -/
theorem c5_supplied_id_reused_counterexample :
    convGet (refine_question constEngine
        ⟨none, some sampleState, "Make the question easier", some 99⟩
        none sampleDB [] 1000 200 0).convs 99
      = some ⟨none,
          [userEntry "Make the question easier",
            assistantEntry sampleRefined.changes_made],
          mkNewState sampleRefined sampleState.model_dump, 0⟩ ∧
    convGet (refine_question constEngine
        ⟨none, some sampleState, "Make the question easier", some 99⟩
        none sampleDB [] 1000 200 0).convs 1000
      = none ∧
    (99 : Nat) ≠ 1000 ∧
    (refine_question constEngine
        ⟨none, some sampleState, "Make the question easier", some 99⟩
        none sampleDB [] 1000 200 0).result
      = Except.error RefineError.validationError :=
  ⟨rfl, rfl, by decide, rfl⟩

/-- C5 (amended): when the supplied `conversation_id` matches no existing
conversation, the new conversation is created in the store under the
CALLER-SUPPLIED id — not a fresh one; every other key of the store, the
fresh-uuid key included, is left untouched.  A fresh id is used only when no
`conversation_id` was supplied at all.  In both cases the conversation starts
with empty history, holding exactly the turn's two appended entries
afterwards.  The internal turn counter for such a call is 1, but it is never
returned: the call ends in the response-construction `ValidationError`. -/
theorem c5_minting_uses_supplied_id (gen : Engine) (r : RefinedQuestion)
    (req : RefinementRequest) (user : Option Nat) (db : DB)
    (convs : List (Nat × Conversation)) (fc fr now : Nat) (qs0 : QStateDict)
    (qid : Option Nat)
    (hg : ∀ s i c, gen s i c = some r)
    (ht : targetResolution req db = Except.ok (qs0, qid)) :
    (∀ cid, req.conversation_id = some cid → convGet convs cid = none →
      convGet (refine_question gen req user db convs fc fr now).convs cid =
        some ⟨qid, [userEntry req.instruction, assistantEntry r.changes_made],
          mkNewState r qs0, now⟩ ∧
      (∀ k, k ≠ cid →
        convGet (refine_question gen req user db convs fc fr now).convs k =
          convGet convs k) ∧
      (refine_question gen req user db convs fc fr now).result =
        Except.error RefineError.validationError) ∧
    (req.conversation_id = none → convGet convs fc = none →
      convGet (refine_question gen req user db convs fc fr now).convs fc =
        some ⟨qid, [userEntry req.instruction, assistantEntry r.changes_made],
          mkNewState r qs0, now⟩ ∧
      (∀ k, k ≠ fc →
        convGet (refine_question gen req user db convs fc fr now).convs k =
          convGet convs k) ∧
      (refine_question gen req user db convs fc fr now).result =
        Except.error RefineError.validationError) := by
  constructor
  · intro cid hcid hnone
    have hc : resolvedConv req convs = none := by
      rw [resolvedConv_of_cid convs hcid, hnone]
    rw [refine_success_shape user convs fc fr now ht hg]
    have hst : resolvedState qs0 req convs = qs0 := by simp [resolvedState, hc]
    rw [hc, hst]
    refine ⟨?_, ?_, ?_⟩
    · exact convGet_after_commit_new user db fc fr now qs0 qid 1 r hcid hnone
    · intro k hk
      exact convGet_after_commit_new_ne user db fc fr now qs0 qid 1 r hcid hnone hk
    · exact refineCommit_result req user db convs fc fr now qs0 qid 1 r
  · intro hcid hnone
    have hc : resolvedConv req convs = none := resolvedConv_of_none convs hcid
    rw [refine_success_shape user convs fc fr now ht hg]
    have hst : resolvedState qs0 req convs = qs0 := by simp [resolvedState, hc]
    rw [hc, hst]
    refine ⟨?_, ?_, ?_⟩
    · exact convGet_after_commit_fresh user db fr now qs0 qid 1 r hcid hnone
    · intro k hk
      exact convGet_after_commit_fresh_ne user db fr now qs0 qid 1 r hcid hnone hk
    · exact refineCommit_result req user db convs fc fr now qs0 qid 1 r

/-- Witness for C5 (amended) at a concrete call naming a nonexistent
conversation id. -/
theorem c5_minting_uses_supplied_id_witness :
    convGet (refine_question constEngine
        ⟨none, some sampleState, "Make the question easier", some 99⟩
        none sampleDB [] 1000 200 0).convs 99
      = some ⟨none,
          [userEntry "Make the question easier",
            assistantEntry sampleRefined.changes_made],
          mkNewState sampleRefined sampleState.model_dump, 0⟩ :=
  ((c5_minting_uses_supplied_id constEngine sampleRefined
      ⟨none, some sampleState, "Make the question easier", some 99⟩
      none sampleDB [] 1000 200 0 sampleState.model_dump none
      (fun _ _ _ => rfl) rfl).1 99 rfl rfl).1

/-- C6: persistence is conditional and framed.  A refine call writes a
`RefinementEntry` (previous state = state before the engine call, new state =
after) and overwrites the Question's text, difficulty, explanation, correct
answer and options — with topic overwritten only when the result supplies a
non-empty topic — exactly when the target was a persisted Question reference
and the caller identity is non-null; with a null caller, or with an
inline-state target, or when the referenced question does not exist, the
database is left completely unchanged. -/
theorem c6_persistence_iff (gen : Engine) (r : RefinedQuestion)
    (req : RefinementRequest) (user : Option Nat) (db : DB)
    (convs : List (Nat × Conversation)) (fc fr now : Nat)
    (hg : ∀ s i c, gen s i c = some r) :
    (∀ qid q0 b, req.question_id = some qid →
      dbGetQuestion db.questions qid = some q0 → user = some b →
      (refine_question gen req user db convs fc fr now).db.refinements
          = db.refinements ++
            [⟨qid, req.instruction, r.changes_made,
              resolvedState (stateOfQuestion q0) req convs,
              mkNewState r (resolvedState (stateOfQuestion q0) req convs)⟩] ∧
      dbGetQuestion (refine_question gen req user db convs fc fr now).db.questions qid
          = some (applyRefinement q0 r
              (mkNewState r (resolvedState (stateOfQuestion q0) req convs)).options) ∧
      (applyRefinement q0 r
          (mkNewState r (resolvedState (stateOfQuestion q0) req convs)).options).topic
          = pyOr r.topic q0.topic) ∧
    (user = none → (refine_question gen req user db convs fc fr now).db = db) ∧
    (req.question_id = none → (refine_question gen req user db convs fc fr now).db = db) ∧
    (∀ qid, req.question_id = some qid → dbGetQuestion db.questions qid = none →
      (refine_question gen req user db convs fc fr now).db = db) := by
  refine ⟨?_, ?_, ?_, ?_⟩
  · intro qid q0 b hq hdb huser
    rw [refine_persist_db fc fr now hg hq hdb huser]
    refine ⟨rfl, ?_, ?_⟩
    · exact dbGetQuestion_map_update _ hdb (applyRefinement_id q0 r _)
    · cases h : r.topic <;> simp [applyRefinement, pyOr, h]
  · intro huser
    subst huser
    cases ht : targetResolution req db with
    | error e => rw [refine_question, ht]
    | ok p =>
        obtain ⟨qs0, qid⟩ := p
        rw [refine_success_shape none convs fc fr now ht hg]
        cases qid with
        | none => exact refineCommit_db_inline req none db convs fc fr now _ _ r
        | some q => exact refineCommit_db_no_user req db convs fc fr now _ (some q) _ r
  · intro hq
    cases hqs : req.question_state with
    | none =>
        have ht : targetResolution req db = Except.error RefineError.invalidRequest := by
          simp [targetResolution, hq, hqs]
        rw [refine_question, ht]
    | some qs =>
        have ht : targetResolution req db = Except.ok (qs.model_dump, none) := by
          simp [targetResolution, hq, hqs]
        rw [refine_success_shape user convs fc fr now ht hg]
        exact refineCommit_db_inline req user db convs fc fr now _ _ r
  · intro qid hq hnone
    have ht : targetResolution req db = Except.error RefineError.notFound := by
      simp [targetResolution, hq, hnone]
    rw [refine_question, ht]

/-- Witness for C6 at a concrete owner-authenticated call on a persisted
question. -/
theorem c6_persistence_iff_witness :
    (refine_question constEngine
        ⟨some 10, none, "Adjust the difficulty", none⟩
        (some 1) sampleDB [] 100 200 0).db.refinements
      = sampleDB.refinements ++
        [⟨10, "Adjust the difficulty", sampleRefined.changes_made,
          resolvedState (stateOfQuestion sampleQuestion10)
            ⟨some 10, none, "Adjust the difficulty", none⟩ [],
          mkNewState sampleRefined
            (resolvedState (stateOfQuestion sampleQuestion10)
              ⟨some 10, none, "Adjust the difficulty", none⟩ [])⟩] :=
  ((c6_persistence_iff constEngine sampleRefined
      ⟨some 10, none, "Adjust the difficulty", none⟩
      (some 1) sampleDB [] 100 200 0 (fun _ _ _ => rfl)).1
    10 sampleQuestion10 1 rfl rfl rfl).1

/-- C7: when the supplied `conversation_id` matches an existing conversation,
the conversation's stored snapshot overrides whatever state was resolved from
the target (`resolvedState` ignores the target state), and the whole call
depends on the generation engine only through its value at the stored
snapshot, the instruction, and the stored turn history — i.e. that history is
the conversation context fed to the engine. -/
theorem c7_conversation_override (g1 g2 : Engine) (req : RefinementRequest)
    (user : Option Nat) (db : DB) (convs : List (Nat × Conversation))
    (fc fr now : Nat) (cid : Nat) (conv : Conversation)
    (hcid : req.conversation_id = some cid)
    (hconv : convGet convs cid = some conv)
    (hagree : g1 conv.current_state req.instruction (ctxArg conv.history)
            = g2 conv.current_state req.instruction (ctxArg conv.history)) :
    (∀ qs0 : QStateDict, resolvedState qs0 req convs = conv.current_state) ∧
    refine_question g1 req user db convs fc fr now
      = refine_question g2 req user db convs fc fr now := by
  have hc : resolvedConv req convs = some conv := by
    rw [resolvedConv_of_cid convs hcid, hconv]
  constructor
  · intro qs0
    simp [resolvedState, hc]
  · cases ht : targetResolution req db with
    | error e => simp only [refine_question, ht]
    | ok p =>
        obtain ⟨qs0, qid⟩ := p
        rw [refine_question_resolved g1 user convs fc fr now ht,
          refine_question_resolved g2 user convs fc fr now ht]
        cases hg1 : g1 conv.current_state req.instruction (ctxArg conv.history) with
        | none =>
            have hg2 : g2 conv.current_state req.instruction (ctxArg conv.history)
                = none := by rw [← hagree, hg1]
            simp [refineCore, resolvedState, hc, hg1, hg2]
        | some r =>
            have hg2 : g2 conv.current_state req.instruction (ctxArg conv.history)
                = some r := by rw [← hagree, hg1]
            rw [refineCore_conv_some user db fc fr now qs0 qid hc hg1,
              refineCore_conv_some user db fc fr now qs0 qid hc hg2]

/-- Witness for C7: an engine that only succeeds on the conversation's stored
snapshot behaves identically to one that always succeeds, even though the
caller re-sent a different (stale) inline state. -/
theorem c7_conversation_override_witness :
    refine_question (fun _ _ _ => some sampleRefined)
        ⟨none, some { sampleState with question_text := "Stale caller copy" },
          "Improve the wording", some 5⟩
        none sampleDB [(5, ⟨none, [], sampleState.model_dump, 0⟩)] 30 40 7
      = refine_question
          (fun s _ _ => if s = sampleState.model_dump then some sampleRefined else none)
          ⟨none, some { sampleState with question_text := "Stale caller copy" },
            "Improve the wording", some 5⟩
          none sampleDB [(5, ⟨none, [], sampleState.model_dump, 0⟩)] 30 40 7 :=
  (c7_conversation_override (fun _ _ _ => some sampleRefined)
      (fun s _ _ => if s = sampleState.model_dump then some sampleRefined else none)
      ⟨none, some { sampleState with question_text := "Stale caller copy" },
        "Improve the wording", some 5⟩
      none sampleDB [(5, ⟨none, [], sampleState.model_dump, 0⟩)] 30 40 7 5
      ⟨none, [], sampleState.model_dump, 0⟩ rfl rfl (by simp)).2

/-- C8: the claim says the first refine call establishing a conversation
returns `turn_number` 1, a second call naming that conversation returns 2,
equal to `len(history) / 2 + 1` on the pre-call history.  The route computes
exactly those turn numbers (refinement.py lines 129/136), but no refine call
ever RETURNS one: the `QuestionPublic(...)` construction at line 200 omits the
required `created_at` field (models.py line 174) and raises `ValidationError`
before the `RefinementResponse` of line 212 is built, so every
generation-successful call ends in HTTP 500 — contradicting the repository's
own test, which asserts status 200 and `turn_number == 1`.  Evaluated at the
failing input: both chained calls end with `ValidationError`, while the
stored history after the first call has the 2 entries from which the second
call's turn number 2 = 2/2 + 1 would have been derived. -/
theorem c8_no_turn_number_returned :
    (refine_question constEngine
        ⟨none, some sampleState, "Make the question easier", none⟩
        none sampleDB [] 50 60 0).result
      = Except.error RefineError.validationError ∧
    (refine_question constEngine
        ⟨none, some sampleState, "Now make it harder", some 50⟩
        none sampleDB
        (refine_question constEngine
          ⟨none, some sampleState, "Make the question easier", none⟩
          none sampleDB [] 50 60 0).convs 70 80 1).result
      = Except.error RefineError.validationError ∧
    (convGet (refine_question constEngine
        ⟨none, some sampleState, "Make the question easier", none⟩
        none sampleDB [] 50 60 0).convs 50).map (fun c => c.history.length)
      = some 2 :=
  ⟨rfl, rfl, rfl⟩

/-- C9: every successful refine call appends exactly two entries to the
conversation's history — first a user entry carrying the instruction, then an
assistant entry summarizing the change — and replaces the stored
current-state snapshot with the new state.  This holds for an existing
conversation, for a conversation created under a supplied-but-unknown id, and
for a freshly minted conversation, i.e. regardless of whether the target was
persisted or inline. -/
theorem c9_history_grows_by_two (gen : Engine) (r : RefinedQuestion)
    (req : RefinementRequest) (user : Option Nat) (db : DB)
    (convs : List (Nat × Conversation)) (fc fr now : Nat)
    (qs0 : QStateDict) (qid : Option Nat)
    (hg : ∀ s i c, gen s i c = some r)
    (ht : targetResolution req db = Except.ok (qs0, qid)) :
    (∀ cid conv, req.conversation_id = some cid → convGet convs cid = some conv →
      convGet (refine_question gen req user db convs fc fr now).convs cid =
        some { conv with
               history := conv.history ++
                 [userEntry req.instruction, assistantEntry r.changes_made]
               current_state := mkNewState r conv.current_state }) ∧
    (∀ cid, req.conversation_id = some cid → convGet convs cid = none →
      convGet (refine_question gen req user db convs fc fr now).convs cid =
        some ⟨qid, [userEntry req.instruction, assistantEntry r.changes_made],
          mkNewState r qs0, now⟩) ∧
    (req.conversation_id = none → convGet convs fc = none →
      convGet (refine_question gen req user db convs fc fr now).convs fc =
        some ⟨qid, [userEntry req.instruction, assistantEntry r.changes_made],
          mkNewState r qs0, now⟩) := by
  refine ⟨?_, ?_, ?_⟩
  · intro cid conv hcid hconv
    have hc : resolvedConv req convs = some conv := by
      rw [resolvedConv_of_cid convs hcid, hconv]
    have hshape := refine_success_shape user convs fc fr now ht hg
    rw [hc] at hshape
    have hst : resolvedState qs0 req convs = conv.current_state := by
      simp [resolvedState, hc]
    rw [hst] at hshape
    rw [hshape]
    exact convGet_after_commit_existing user db fc fr now conv.current_state qid
      (conv.history.length / 2 + 1) r hcid hconv
  · intro cid hcid hnone
    have hc : resolvedConv req convs = none := by
      rw [resolvedConv_of_cid convs hcid, hnone]
    have hshape := refine_success_shape user convs fc fr now ht hg
    rw [hc] at hshape
    have hst : resolvedState qs0 req convs = qs0 := by simp [resolvedState, hc]
    rw [hst] at hshape
    rw [hshape]
    exact convGet_after_commit_new user db fc fr now qs0 qid 1 r hcid hnone
  · intro hcid hnone
    have hc : resolvedConv req convs = none := resolvedConv_of_none convs hcid
    have hshape := refine_success_shape user convs fc fr now ht hg
    rw [hc] at hshape
    have hst : resolvedState qs0 req convs = qs0 := by simp [resolvedState, hc]
    rw [hst] at hshape
    rw [hshape]
    exact convGet_after_commit_fresh user db fr now qs0 qid 1 r hcid hnone

/-- Witness for C9 at a concrete call continuing an existing conversation
with a two-entry history. -/
theorem c9_history_grows_by_two_witness :
    convGet (refine_question constEngine
        ⟨none, some sampleState, "Tighten the wording", some 5⟩
        none sampleDB
        [(5, ⟨none, [userEntry "Previous instruction", assistantEntry "Prior edit"],
          sampleState.model_dump, 0⟩)] 30 40 7).convs 5 =
      some ⟨none,
        [userEntry "Previous instruction", assistantEntry "Prior edit",
          userEntry "Tighten the wording", assistantEntry sampleRefined.changes_made],
        mkNewState sampleRefined sampleState.model_dump, 0⟩ :=
  (c9_history_grows_by_two constEngine sampleRefined
      ⟨none, some sampleState, "Tighten the wording", some 5⟩
      none sampleDB
      [(5, ⟨none, [userEntry "Previous instruction", assistantEntry "Prior edit"],
        sampleState.model_dump, 0⟩)] 30 40 7 sampleState.model_dump none
      (fun _ _ _ => rfl) rfl).1 5
    ⟨none, [userEntry "Previous instruction", assistantEntry "Prior edit"],
      sampleState.model_dump, 0⟩ rfl rfl

/-- C10: `get_conversation` is not deterministic in the `question_id` field
for conversations created from inline state (stored `question_id` is null):
two successive calls with no intervening refine return identical history and
current state but the freshly randomized ids supplied for the two calls, so
the field is not a stable identifier. -/
theorem c10_question_id_not_stable (convs : List (Nat × Conversation))
    (cid : Nat) (conv : Conversation) (u1 u2 : Nat) (ca : String)
    (hconv : convGet convs cid = some conv)
    (hq : conv.question_id = none)
    (hca : conv.current_state.correct_answer = some ca)
    (hne : u1 ≠ u2) :
    ∃ h1 h2 : ConversationHistory,
      get_conversation convs cid u1 = Except.ok h1 ∧
      get_conversation convs cid u2 = Except.ok h2 ∧
      h1.turns = h2.turns ∧ h1.current_state = h2.current_state ∧
      h1.question_id = u1 ∧ h2.question_id = u2 ∧
      h1.question_id ≠ h2.question_id := by
  have hof : QuestionState.ofDict conv.current_state =
      some { question_text := conv.current_state.question_text
             question_type := conv.current_state.question_type
             difficulty := conv.current_state.difficulty
             topic := conv.current_state.topic
             explanation := conv.current_state.explanation
             correct_answer := ca
             options := conv.current_state.options } := by
    simp [QuestionState.ofDict, hca]
  refine ⟨⟨cid, u1, conv.history,
      ⟨conv.current_state.question_text, conv.current_state.question_type,
        conv.current_state.difficulty, conv.current_state.topic,
        conv.current_state.explanation, ca, conv.current_state.options⟩⟩,
    ⟨cid, u2, conv.history,
      ⟨conv.current_state.question_text, conv.current_state.question_type,
        conv.current_state.difficulty, conv.current_state.topic,
        conv.current_state.explanation, ca, conv.current_state.options⟩⟩,
    ?_, ?_, rfl, rfl, rfl, rfl, hne⟩
  · simp [get_conversation, hconv, hof, hq]
  · simp [get_conversation, hconv, hof, hq]

/-- Witness for C10 at a concrete inline-state conversation. -/
theorem c10_question_id_not_stable_witness :
    ∃ h1 h2 : ConversationHistory,
      get_conversation [(5, ⟨none, [], sampleState.model_dump, 0⟩)] 5 1 = Except.ok h1 ∧
      get_conversation [(5, ⟨none, [], sampleState.model_dump, 0⟩)] 5 2 = Except.ok h2 ∧
      h1.turns = h2.turns ∧ h1.current_state = h2.current_state ∧
      h1.question_id = 1 ∧ h2.question_id = 2 ∧
      h1.question_id ≠ h2.question_id :=
  c10_question_id_not_stable [(5, ⟨none, [], sampleState.model_dump, 0⟩)] 5
    ⟨none, [], sampleState.model_dump, 0⟩ 1 2 sampleState.correct_answer
    rfl rfl rfl (by decide)
